import Mathlib

/-!
Shallow embedding of `sundowner` (src/sundowner/__init__.py), a small web
service computing sunrise/sunset and civil dawn/dusk times with the `ephem`
astronomy library.  The embedding models the repository's own code directly;
the external library calls (`Observer.next_rising` / `next_setting`) are kept
abstract as function parameters, and where a claim depends on the library's
horizon-crossing search itself, a discrete solver is modelled from the spec
(section 4.2) and clearly marked as such.
-/

namespace Sundowner

/-- A Python `datetime.datetime` value: civil components plus an optional
timezone offset in minutes (`none` = naive).  `ephem`'s `.datetime()` returns
naive UTC values; `replace(tzinfo=timezone.utc)` sets `tz := some 0`. -/
structure DateTime where
  year : Int
  month : Nat
  day : Nat
  hour : Nat
  minute : Nat
  second : Nat
  microsecond : Nat
  tz : Option Int
deriving Repr, DecidableEq

/-- Days from the Unix epoch (1970-01-01) to the given proleptic-Gregorian
civil date; the standard days-from-civil algorithm used by Python's
`datetime` arithmetic. -/
def daysFromCivil (y : Int) (m d : Int) : Int :=
  let y' := if m ≤ 2 then y - 1 else y
  let era := (if 0 ≤ y' then y' else y' - 399) / 400
  let yoe := y' - era * 400
  let mp := (m + 9) % 12
  let doy := (153 * mp + 2) / 5 + d - 1
  let doe := yoe * 365 + yoe / 4 - yoe / 100 + doy
  era * 146097 + doe - 719468

/-- The microseconds since the Unix epoch of a `DateTime`, an exact integer
(the timezone offset subtracted; naive values are read as UTC, matching
the program's use where `tz` is always `some 0` at this point). -/
def epochMicroseconds (t : DateTime) : Int :=
  (daysFromCivil t.year t.month t.day * 86400
      + (t.hour : Int) * 3600 + (t.minute : Int) * 60 + (t.second : Int)
      - t.tz.getD 0 * 60) * 1000000
    + (t.microsecond : Int)

/-- Python `datetime.timestamp()` on a timezone-aware value: seconds since the
Unix epoch, as an exact rational (microseconds included). -/
def timestamp (t : DateTime) : ℚ :=
  Rat.divInt (epochMicroseconds t) 1000000

/-- Python 3 `round()` on a rational: nearest integer, ties to even.  The
fractional part `q - ⌊q⌋` is compared with `1/2` by comparing its doubled
numerator `2 * (q.num - ⌊q⌋ * q.den)` with the denominator. -/
def pyRound (q : ℚ) : Int :=
  let f := ⌊q⌋
  let tf := 2 * (q.num - f * (q.den : Int))
  if tf < (q.den : Int) then f
  else if (q.den : Int) < tf then f + 1
  else if f % 2 = 0 then f else f + 1

/-- Left-pad the decimal form of a natural number with zeros to `w` digits,
as Python's `%0wd` formatting does. -/
def padNat (w : Nat) (n : Nat) : String :=
  let s := toString n
  String.mk (List.replicate (w - s.length) '0') ++ s

/-- Decimal form of an integer, zero-padded to `w` digits. -/
def padInt (w : Nat) (i : Int) : String :=
  if i < 0 then "-" ++ padNat w (-i).toNat else padNat w i.toNat

/-- A UTC-offset suffix as Python renders it: `+HH:MM` or `-HH:MM`. -/
def offsetText (off : Int) : String :=
  let sign := if off < 0 then "-" else "+"
  let a := if off < 0 then (-off).toNat else off.toNat
  sign ++ padNat 2 (a / 60) ++ ":" ++ padNat 2 (a % 60)

/-- Python `datetime.isoformat()`: `YYYY-MM-DDTHH:MM:SS`, with `.ffffff`
microseconds when nonzero and the offset suffix when timezone-aware. -/
def isoformat (t : DateTime) : String :=
  padInt 4 t.year ++ "-" ++ padNat 2 t.month ++ "-" ++ padNat 2 t.day
    ++ "T" ++ padNat 2 t.hour ++ ":" ++ padNat 2 t.minute ++ ":" ++ padNat 2 t.second
    ++ (if t.microsecond = 0 then "" else "." ++ padNat 6 t.microsecond)
    ++ (match t.tz with
        | none => ""
        | some off => offsetText off)

/-- A rendered event value, one constructor per recognized `output_type`:
`js` (milliseconds since the epoch), `dt` (the datetime itself),
`iso` (ISO 8601 text). -/
inductive Rendered where
  | js (ms : Int)
  | dt (t : DateTime)
  | iso (s : String)
deriving Repr, DecidableEq

/-- A Python runtime failure that `calculate_sunrise` can hit: reading the
local `output_time` when no formatting branch assigned it. -/
inductive PyError where
  | unboundLocalError
deriving Repr, DecidableEq

/-- One event's outcome: a runtime error, or `some` rendered value, or `none`
for the circumpolar absence value (Python `None`). -/
abbrev EventResult := Except PyError (Option Rendered)

/-- The mutable `ephem.Observer` object: geographic position, atmospheric
pressure, plus the per-calculation `date` (a calendar-day ordinal, interpreted
as 00:00 UTC of that day) and `horizon` (degrees).  Angles are modelled as
exact rationals in degrees. -/
structure Observer where
  lat : ℚ
  lon : ℚ
  pressure : ℚ
  date : Int
  horizon : ℚ
deriving Repr, DecidableEq

/-- A fresh `ephem.Observer()` with the library's defaults (pressure 1010 hPa;
position and horizon zero; date irrelevant here, taken as 0).  Every field the
program reads is overwritten before use. -/
def Observer.new : Observer :=
  { lat := 0, lon := 0, pressure := 1010, date := 0, horizon := 0 }

/-- The decimal value of a digit-character list, most significant first. -/
def digitsToNat (cs : List Char) : Nat :=
  cs.foldl (fun a c => a * 10 + (c.toNat - 48)) 0

/-- Split a character list at each `:`. -/
def splitColon : List Char → List Char → List (List Char)
  | [], acc => [acc.reverse]
  | c :: cs, acc =>
    if c = ':' then acc.reverse :: splitColon cs [] else splitColon cs (c :: acc)

/-- Modelled from the spec: the library's sexagesimal angle parser, for the
degree strings the program passes (`'-6'` and `'-0:34'`): an optional sign,
whole degrees, and an optional `:`-separated arcminute part
(spec section 3: thresholds −6° and −0°34′ = −0.5667°). -/
def ephemAngle (s : String) : ℚ :=
  let body : List Char := match s.data with
    | '-' :: rest => rest
    | cs => cs
  let arcminutes : Int :=
    match splitColon body [] with
    | [d] => (digitsToNat d : Int) * 60
    | [d, m] => (digitsToNat d : Int) * 60 + (digitsToNat m : Int)
    | _ => 0
  Rat.divInt (if s.data.head? = some '-' then -arcminutes else arcminutes) 60

/-- The external library's next-event search, kept abstract: from the
observer's state (position, pressure, date, horizon) either the next
rising/setting instant as a naive UTC datetime, or `none` where the library
raises `ephem.CircumpolarError`. -/
structure EphemLib where
  next_rising : Observer → Option DateTime
  next_setting : Observer → Option DateTime

/-- `calculate_sunrise(location, day, horizon, dawn, output_type)`: sets the
observer's date and horizon, runs the library's next-rising or next-setting
search, turns `CircumpolarError` into `None`, marks a found instant as UTC and
renders it per `output_type`.  Returns the mutated observer together with the
result; an unrecognized `output_type` leaves the local `output_time` unbound. -/
def calculate_sunrise (lib : EphemLib) (location : Observer) (day : Int)
    (horizon : String) (dawn : Bool) (output_type : String) :
    Observer × EventResult :=
  let location := { location with date := day, horizon := ephemAngle horizon }
  let suntime := if dawn then lib.next_rising location else lib.next_setting location
  match suntime with
  | none => (location, .ok none)
  | some t =>
    let t := { t with tz := some 0 }
    if output_type = "js" then
      (location, .ok (some (.js (pyRound (timestamp t * 1000)))))
    else if output_type = "dt" then
      (location, .ok (some (.dt t)))
    else if output_type = "iso" then
      (location, .ok (some (.iso (isoformat t))))
    else
      (location, .error .unboundLocalError)

/-- The fixed event table of `list_times`, in the source's (insertion) order:
name, horizon string, and dawn flag. -/
def eventTable : List (String × String × Bool) :=
  [("civil_dawn", "-6", true), ("sunrise", "-0:34", true),
   ("sunset", "-0:34", false), ("civil_dusk", "-6", false)]

/-- The observer `list_times` builds: a fresh `ephem.Observer` with the
requested latitude and longitude and pressure set to 0. -/
def mkLocation (latitude longitude : ℚ) : Observer :=
  { Observer.new with lat := latitude, lon := longitude, pressure := 0 }

/-- `list_times(latitude, longitude, day, output_type)`: builds the observer
and evaluates the four canonical events with `calculate_sunrise`, threading
the single mutable observer object through the calls in table order, as the
Python dict comprehension does. -/
def list_times (lib : EphemLib) (latitude longitude : ℚ) (day : Int)
    (output_type : String) : List (String × EventResult) :=
  let location := mkLocation latitude longitude
  (eventTable.foldl
    (fun acc ev =>
      let r := calculate_sunrise lib acc.1 day ev.2.1 ev.2.2 output_type
      (r.1, acc.2 ++ [(ev.1, r.2)]))
    (location, [])).2

/-- One element of the `sun()` response: a calendar day (ordinal) with its
event map. -/
structure DayResult where
  date : Int
  events : List (String × EventResult)
deriving Repr

/-- The day-count of `sun()`: `(end + timedelta(days=1) - start).days`. -/
def days_range (start end_ : Int) : Int := end_ + 1 - start

/-- The day list of `sun()`: `[start + timedelta(days=i) for i in
range(days_range)]`; Python's `range` of a non-positive count is empty. -/
def sunDays (start end_ : Int) : List Int :=
  (List.range (days_range start end_).toNat).map (fun (i : Nat) => start + (i : Int))

/-- The core of the `sun()` endpoint: one `DayResult` per listed day, each
from `list_times`. -/
def sun (lib : EphemLib) (latitude longitude : ℚ) (start end_ : Int)
    (output_type : String) : List DayResult :=
  (sunDays start end_).map
    (fun day => { date := day, events := list_times lib latitude longitude day output_type })

/-- The first index `j` with `i ≤ j < i + fuel` satisfying `p`, scanning
upward from `i`. -/
def searchFrom (p : Nat → Bool) (i : Nat) : Nat → Option Nat
  | 0 => none
  | fuel + 1 => if p i then some i else searchFrom p (i + 1) fuel

/-- Modelled from the spec (section 4.2): the sample step where the sun's
altitude crosses `threshold` in the requested direction — rising means the
altitude passes from below the threshold to at or above it at the next
sample, setting the reverse. -/
def crossAt (f : Nat → ℚ) (threshold : ℚ) (rising : Bool) (i : Nat) : Bool :=
  if rising then decide (f i < threshold) && decide (threshold ≤ f (i + 1))
  else decide (threshold ≤ f i) && decide (f (i + 1) < threshold)

/-- Modelled from the spec (section 4.2): the forward search window of one
day plus a safety margin, in 10-minute samples (the spec's coarse sampling
bound): 150 samples = 25 hours. -/
def searchWindow : Nat := 150

/-- Modelled from the spec (section 4.2): the library's `next_rising` /
`next_setting` search, which `ephem` performs and the repository calls as an
opaque operation.  `f` is the sun's apparent altitude sampled from the search
epoch (00:00 UTC of the requested day); the result is the first sample step
at which the altitude crosses `threshold` in the requested direction, or
`none` (the circumpolar sentinel) when no such crossing exists in the
window.  The spec's sub-sample root refinement is omitted: it relocates a
crossing within its bracketing step and cannot reorder distinct crossings. -/
def next_cross (f : Nat → ℚ) (threshold : ℚ) (rising : Bool) : Option Nat :=
  searchFrom (crossAt f threshold rising) 0 searchWindow

/-- A concrete altitude profile (degrees per 10-minute sample) of an observer
near longitude 180° at mid-latitudes: at the 00:00 UTC search epoch it is
local noon with the sun at +20°, the sun then descends linearly to −10° at
local midnight (sample 72) and climbs back, 5/12° per sample. -/
def noonStartAltitude (i : Nat) : ℚ :=
  Rat.divInt (((((i : Int) - 72).natAbs : Int)) * 5 - 120) 12

/-- A concrete altitude profile (degrees per 10-minute sample) of an observer
for whom 00:00 UTC is local midnight with the sun at −15°; the sun climbs
linearly to +15° at local noon (sample 72) and descends again, 5/12° per
sample. -/
def nightStartAltitude (i : Nat) : ℚ :=
  Rat.divInt ((72 - ((((i : Int) - 72).natAbs : Int))) * 5 - 180) 12

/-- A sample naive datetime, as `ephem`'s `.datetime()` would return. -/
def sampleTime : DateTime :=
  { year := 2024, month := 6, day := 20, hour := 4, minute := 43, second := 7,
    microsecond := 250000, tz := none }

/-- A library behaviour whose searches always report the circumpolar
condition. -/
def absentLib : EphemLib :=
  { next_rising := fun _ => none, next_setting := fun _ => none }

/-- A library behaviour whose searches always find `sampleTime`. -/
def presentLib : EphemLib :=
  { next_rising := fun _ => some sampleTime, next_setting := fun _ => some sampleTime }

/-- A probing library behaviour that answers only when the observer it is
handed carries latitude 95 — it witnesses which latitude value reaches the
solver. -/
def probeLat95Lib : EphemLib :=
  { next_rising := fun o => if o.lat = 95 then some sampleTime else none,
    next_setting := fun o => if o.lat = 95 then some sampleTime else none }

/-- `searchFrom` returns the first index satisfying `p`: the index satisfies
`p`, lies in the scanned interval, and every earlier scanned index fails. -/
theorem searchFrom_some {p : Nat → Bool} {i fuel j : Nat}
    (h : searchFrom p i fuel = some j) :
    p j = true ∧ i ≤ j ∧ j < i + fuel ∧ ∀ k, i ≤ k → k < j → p k = false := by
  induction fuel generalizing i with
  | zero => simp [searchFrom] at h
  | succ n ih =>
    rw [searchFrom] at h
    by_cases hp : p i = true
    · rw [if_pos hp] at h
      cases h
      exact ⟨hp, Nat.le_refl _, by omega, fun k hk1 hk2 => by omega⟩
    · rw [if_neg hp] at h
      obtain ⟨h1, h2, h3, h4⟩ := ih h
      refine ⟨h1, by omega, by omega, ?_⟩
      intro k hk1 hk2
      rcases Nat.eq_or_lt_of_le hk1 with hk | hk
      · rw [hk] at hp
        exact Bool.eq_false_iff.mpr hp
      · exact h4 k hk hk2

/-- Discrete intermediate-value step: an altitude starting below a threshold
and at or above it at sample `b` has a rising crossing before `b`. -/
theorem exists_rising_cross {f : Nat → ℚ} {θ : ℚ} {b : Nat}
    (h0 : f 0 < θ) (hb : θ ≤ f b) : ∃ j, j < b ∧ crossAt f θ true j = true := by
  induction b with
  | zero => exact absurd hb (not_le.mpr h0)
  | succ n ih =>
    by_cases hn : θ ≤ f n
    · obtain ⟨j, hj1, hj2⟩ := ih hn
      exact ⟨j, by omega, hj2⟩
    · refine ⟨n, by omega, ?_⟩
      simp only [crossAt, if_pos, Bool.and_eq_true, decide_eq_true_eq]
      exact ⟨not_le.mp hn, hb⟩

/-- A successful `next_cross` search yields the first crossing in the
window. -/
theorem next_cross_some {f : Nat → ℚ} {θ : ℚ} {rising : Bool} {j : Nat}
    (h : next_cross f θ rising = some j) :
    crossAt f θ rising j = true ∧ j < searchWindow ∧
      ∀ k, k < j → crossAt f θ rising k = false := by
  obtain ⟨h1, _, h3, h4⟩ := searchFrom_some h
  exact ⟨h1, by omega, fun k hk => h4 k (Nat.zero_le k) hk⟩

/-- A rising crossing at step `i` is exactly: below the threshold at `i`, at
or above it at `i + 1`. -/
theorem crossAt_true_iff (f : Nat → ℚ) (θ : ℚ) (i : Nat) :
    crossAt f θ true i = true ↔ (f i < θ ∧ θ ≤ f (i + 1)) := by
  simp [crossAt]

/-- A setting crossing at step `i` is exactly: at or above the threshold at
`i`, below it at `i + 1`. -/
theorem crossAt_false_iff (f : Nat → ℚ) (θ : ℚ) (i : Nat) :
    crossAt f θ false i = true ↔ (θ ≤ f i ∧ f (i + 1) < θ) := by
  simp [crossAt]

/-- `calculate_sunrise` returns the observer with exactly its date and
horizon reassigned, whatever the library answers and whatever the output
type. -/
theorem calculate_sunrise_fst (lib : EphemLib) (o : Observer) (day : Int)
    (h : String) (dawn : Bool) (ot : String) :
    (calculate_sunrise lib o day h dawn ot).1 =
      { o with date := day, horizon := ephemAngle h } := by
  unfold calculate_sunrise
  cases hst : (if dawn then
      lib.next_rising { o with date := day, horizon := ephemAngle h }
    else lib.next_setting { o with date := day, horizon := ephemAngle h }) with
  | none => simp [hst]
  | some t => simp only [hst]; split_ifs <;> rfl

/-- The event result of `calculate_sunrise` depends on the incoming observer
only through its latitude, longitude and pressure: the date and horizon it
carries are overwritten before the library is consulted. -/
theorem calculate_sunrise_snd_congr (lib : EphemLib) (o o₂ : Observer)
    (day : Int) (h : String) (dawn : Bool) (ot : String)
    (hlat : o.lat = o₂.lat) (hlon : o.lon = o₂.lon)
    (hpr : o.pressure = o₂.pressure) :
    (calculate_sunrise lib o day h dawn ot).2 =
      (calculate_sunrise lib o₂ day h dawn ot).2 := by
  obtain ⟨a, b, c, d, e⟩ := o
  obtain ⟨a₂, b₂, c₂, d₂, e₂⟩ := o₂
  simp only at hlat hlon hpr
  subst hlat; subst hlon; subst hpr
  rfl

/-- The `sun` endpoint as a single map over the day indices. -/
theorem sun_eq (lib : EphemLib) (lat lon : ℚ) (start e : Int) (ot : String) :
    sun lib lat lon start e ot = (List.range (days_range start e).toNat).map
      (fun (i : Nat) =>
        ⟨start + (i : Int), list_times lib lat lon (start + (i : Int)) ot⟩) := by
  unfold sun sunDays
  rw [List.map_map]
  rfl

/-- C1: for every observer position and calendar day, `list_times` computes
exactly the four canonical events, in order civil_dawn, sunrise, sunset,
civil_dusk, with thresholds −6° rising, −0°34′ rising, −0°34′ setting, −6°
setting, each evaluated against an observer whose atmospheric pressure is 0
(disabling the library's refraction correction); the horizon strings parse
to −6 and −34/60 = −0.5667 degrees. -/
theorem list_times_canonical_events (lib : EphemLib) (lat lon : ℚ) (day : Int)
    (ot : String) :
    list_times lib lat lon day ot =
      [("civil_dawn", (calculate_sunrise lib (mkLocation lat lon) day "-6" true ot).2),
       ("sunrise", (calculate_sunrise lib (mkLocation lat lon) day "-0:34" true ot).2),
       ("sunset", (calculate_sunrise lib (mkLocation lat lon) day "-0:34" false ot).2),
       ("civil_dusk", (calculate_sunrise lib (mkLocation lat lon) day "-6" false ot).2)]
    ∧ (mkLocation lat lon).pressure = 0
    ∧ ephemAngle "-6" = -6
    ∧ ephemAngle "-0:34" = -(34 / 60 : ℚ) := by
  refine ⟨?_, rfl, by decide, ?_⟩
  · show ((eventTable.foldl
      (fun acc ev =>
        let r := calculate_sunrise lib acc.1 day ev.2.1 ev.2.2 ot
        (r.1, acc.2 ++ [(ev.1, r.2)]))
      (mkLocation lat lon, [])).2) = _
    simp only [eventTable, List.foldl_cons, List.foldl_nil, calculate_sunrise_fst]
    rw [calculate_sunrise_snd_congr lib
      { mkLocation lat lon with date := day, horizon := ephemAngle "-6" }
      (mkLocation lat lon) day "-0:34" true ot rfl rfl rfl]
    rw [calculate_sunrise_snd_congr lib
      { mkLocation lat lon with date := day, horizon := ephemAngle "-0:34" }
      (mkLocation lat lon) day "-0:34" false ot rfl rfl rfl]
    rw [calculate_sunrise_snd_congr lib
      { mkLocation lat lon with date := day, horizon := ephemAngle "-0:34" }
      (mkLocation lat lon) day "-6" false ot rfl rfl rfl]
    rfl
  · have h : ephemAngle "-0:34" = Rat.divInt (-34) 60 := by decide
    rw [h, Rat.divInt_eq_div]
    norm_num

/-- C2: when the library's search reports the circumpolar condition (the sun
does not cross the threshold in the requested direction), `calculate_sunrise`
returns the explicit absence value `none` wrapped as a normal result — not an
error — and does so unchanged for every `output_type`, recognized or not. -/
theorem calculate_sunrise_circumpolar_absence (lib : EphemLib)
    (location : Observer) (day : Int) (horizon : String) (dawn : Bool)
    (output_type : String)
    (h : (if dawn then lib.next_rising else lib.next_setting)
        { location with date := day, horizon := ephemAngle horizon } = none) :
    (calculate_sunrise lib location day horizon dawn output_type).2 = .ok none := by
  unfold calculate_sunrise
  cases dawn <;> simp only [Bool.false_eq_true, if_true, if_false] at h ⊢ <;> simp [h]

/-- C2 witness: a circumpolar answer from the library surfaces as the absence
value even under an unrecognized output type. -/
theorem calculate_sunrise_circumpolar_absence_witness :
    (calculate_sunrise absentLib (mkLocation 70 0) 19894 "-0:34" true "nonsense").2
      = .ok none :=
  calculate_sunrise_circumpolar_absence absentLib (mkLocation 70 0) 19894 "-0:34"
    true "nonsense" rfl

/-- C3: for an inclusive range with `start ≤ end`, the `sun` endpoint yields
exactly `end − start + 1` day results, with strictly increasing dates that
are precisely `start, start+1, …, end`, each carrying the four canonical
events. -/
theorem sun_inclusive_day_range (lib : EphemLib) (lat lon : ℚ) (start e : Int)
    (ot : String) (h : start ≤ e) :
    ((sun lib lat lon start e ot).length : Int) = e - start + 1
    ∧ List.Pairwise (fun a b => a.date < b.date) (sun lib lat lon start e ot)
    ∧ (sun lib lat lon start e ot).map DayResult.date
        = (List.range (e - start + 1).toNat).map (fun (i : Nat) => start + (i : Int))
    ∧ ∀ dr ∈ sun lib lat lon start e ot,
        dr.events.map Prod.fst = ["civil_dawn", "sunrise", "sunset", "civil_dusk"] := by
  have hrange : days_range start e = e - start + 1 := by unfold days_range; ring
  refine ⟨?_, ?_, ?_, ?_⟩
  · rw [sun_eq, List.length_map, List.length_range, hrange]
    omega
  · rw [sun_eq, List.pairwise_map]
    refine (List.pairwise_lt_range _).imp ?_
    intro a b hab
    simp only []
    omega
  · rw [sun_eq, List.map_map, hrange]
    rfl
  · intro dr hdr
    rw [sun_eq, List.mem_map] at hdr
    obtain ⟨day, _, rfl⟩ := hdr
    rfl

/-- C3 witness: the spec's own example range (three days, London) produces
exactly 3 day results. -/
theorem sun_inclusive_day_range_witness :
    ((sun absentLib (103 / 2) (-13 / 100) 19894 19896 "iso").length : Int)
      = 19896 - 19894 + 1 :=
  (sun_inclusive_day_range absentLib (103 / 2) (-13 / 100) 19894 19896 "iso"
    (by decide)).1

/-- C4: when the end date precedes the start date, the computed range length
is non-positive and the `sun` endpoint yields the empty sequence rather than
raising an error. -/
theorem sun_empty_range (lib : EphemLib) (lat lon : ℚ) (start e : Int)
    (ot : String) (h : e < start) :
    sun lib lat lon start e ot = [] := by
  have h0 : (days_range start e).toNat = 0 := by
    unfold days_range; omega
  rw [sun_eq, h0]
  rfl

/-- C4 witness: an end date two days before the start date yields the empty
sequence. -/
theorem sun_empty_range_witness :
    sun absentLib 0 0 5 3 "iso" = [] :=
  sun_empty_range absentLib 0 0 5 3 "iso" (by decide)

/-- C5 (amended): when the search epoch falls during night (altitude below
−6° at 00:00 UTC) and the altitude over the search window is unimodal — it
rises to a single peak, then falls — the four event instants found by the
forward search are chronologically ordered: civil_dawn ≤ sunrise ≤ sunset ≤
civil_dusk.  The thresholds are the program's, via `ephemAngle`. -/
theorem event_order_from_night_epoch (f : Nat → ℚ) (peak : Nat) (d r s k : Nat)
    (h0 : f 0 < ephemAngle "-6")
    (hup : ∀ j, j ≤ peak → ∀ i, i ≤ j → f i ≤ f j)
    (hdown : ∀ j, j ≤ searchWindow → ∀ i, i ≤ j → peak ≤ i → f j ≤ f i)
    (hd : next_cross f (ephemAngle "-6") true = some d)
    (hr : next_cross f (ephemAngle "-0:34") true = some r)
    (hs : next_cross f (ephemAngle "-0:34") false = some s)
    (hk : next_cross f (ephemAngle "-6") false = some k) :
    d ≤ r ∧ r ≤ s ∧ s ≤ k := by
  have hθ : ephemAngle "-6" < ephemAngle "-0:34" := by decide
  obtain ⟨hdc, hdw, hdmin⟩ := next_cross_some hd
  obtain ⟨hrc, hrw, hrmin⟩ := next_cross_some hr
  obtain ⟨hsc, hsw, hsmin⟩ := next_cross_some hs
  obtain ⟨hkc, hkw, hkmin⟩ := next_cross_some hk
  rw [crossAt_true_iff] at hrc
  rw [crossAt_false_iff] at hsc hkc
  refine ⟨?_, ?_, ?_⟩
  · obtain ⟨j, hj1, hj2⟩ := exists_rising_cross h0 (le_trans hθ.le hrc.2)
    have hdj : d ≤ j := by
      by_contra hlt
      push_neg at hlt
      rw [hdmin j hlt] at hj2
      exact Bool.false_ne_true hj2
    omega
  · obtain ⟨j, hj1, hj2⟩ := exists_rising_cross (h0.trans hθ) hsc.1
    have hrj : r ≤ j := by
      by_contra hlt
      push_neg at hlt
      rw [hrmin j hlt] at hj2
      exact Bool.false_ne_true hj2
    omega
  · by_contra hks
    push_neg at hks
    by_cases hcase : k + 1 ≤ peak
    · have hmono := hup (k + 1) hcase k (by omega)
      linarith [hkc.1, hkc.2]
    · push_neg at hcase
      have hmono := hdown s (by omega) (k + 1) (by omega) (by omega)
      linarith [hkc.2, hsc.1, hθ]

/-- C5 witness: a night-start unimodal altitude profile has its four
crossings at samples 21, 34, 109, 122, in order. -/
theorem event_order_from_night_epoch_witness :
    (21 : Nat) ≤ 34 ∧ (34 : Nat) ≤ 109 ∧ (109 : Nat) ≤ 122 :=
  event_order_from_night_epoch nightStartAltitude 72 21 34 109 122
    (by decide) (by decide) (by decide) (by decide) (by decide) (by decide) (by decide)

/-- C5 counterexample: for an observer whose UTC day starts at local noon
(valid near longitude 180°), all four events exist in the window but the
forward-search instants come in the order sunset, civil_dusk, civil_dawn,
sunrise: sunrise (sample 94) is not ≤ sunset (sample 49), refuting the
unconditional ordering claim. -/
theorem event_order_noon_epoch_counterexample :
    (next_cross noonStartAltitude (ephemAngle "-6") true = some 81
     ∧ next_cross noonStartAltitude (ephemAngle "-0:34") true = some 94
     ∧ next_cross noonStartAltitude (ephemAngle "-0:34") false = some 49
     ∧ next_cross noonStartAltitude (ephemAngle "-6") false = some 62)
    ∧ ¬(94 : Nat) ≤ 49 :=
  ⟨⟨by decide, by decide, by decide, by decide⟩, by omega⟩

/-- C6: a found instant is marked UTC (`tz := some 0`) with all clock
components untouched (no timezone conversion), and is rendered per the
output mode: `js` as the rounded milliseconds since the Unix epoch, `dt` as
the datetime value itself, `iso` as its ISO 8601 text. -/
theorem calculate_sunrise_utc_rendering (lib : EphemLib) (location : Observer)
    (day : Int) (horizon : String) (dawn : Bool) (t : DateTime)
    (h : (if dawn then lib.next_rising else lib.next_setting)
        { location with date := day, horizon := ephemAngle horizon } = some t) :
    (calculate_sunrise lib location day horizon dawn "js").2
        = .ok (some (.js (pyRound (timestamp { t with tz := some 0 } * 1000))))
    ∧ (calculate_sunrise lib location day horizon dawn "dt").2
        = .ok (some (.dt { t with tz := some 0 }))
    ∧ (calculate_sunrise lib location day horizon dawn "iso").2
        = .ok (some (.iso (isoformat { t with tz := some 0 })))
    ∧ ({ t with tz := some 0 }).tz = some 0
    ∧ ({ t with tz := some 0 }).year = t.year
    ∧ ({ t with tz := some 0 }).month = t.month
    ∧ ({ t with tz := some 0 }).day = t.day
    ∧ ({ t with tz := some 0 }).hour = t.hour
    ∧ ({ t with tz := some 0 }).minute = t.minute
    ∧ ({ t with tz := some 0 }).second = t.second
    ∧ ({ t with tz := some 0 }).microsecond = t.microsecond
    ∧ timestamp { t with tz := some 0 } * 1000
        = Rat.divInt (epochMicroseconds { t with tz := some 0 }) 1000 := by
  refine ⟨?_, ?_, ?_, rfl, rfl, rfl, rfl, rfl, rfl, rfl, rfl, ?_⟩
  · unfold calculate_sunrise
    cases dawn <;> simp only [Bool.false_eq_true, if_true, if_false] at h ⊢ <;> simp [h]
  · unfold calculate_sunrise
    cases dawn <;> simp only [Bool.false_eq_true, if_true, if_false] at h ⊢ <;> simp [h]
  · unfold calculate_sunrise
    cases dawn <;> simp only [Bool.false_eq_true, if_true, if_false] at h ⊢ <;> simp [h]
  · rw [timestamp, Rat.divInt_eq_div, Rat.divInt_eq_div]
    field_simp
    ring

/-- C6 witness: rendering the sample instant in `dt` mode yields the
UTC-marked datetime itself. -/
theorem calculate_sunrise_utc_rendering_witness :
    (calculate_sunrise presentLib (mkLocation 0 0) 19894 "-6" true "dt").2
      = .ok (some (.dt { sampleTime with tz := some 0 })) :=
  (calculate_sunrise_utc_rendering presentLib (mkLocation 0 0) 19894 "-6" true
    sampleTime rfl).2.1

/-- C7 (amended): the code performs no coordinate validation: the observer
stores exactly the latitude and longitude it is given — neither rejected nor
clamped — and every event calculation passes them unchanged to the library's
solver. -/
theorem observer_stores_raw_coordinates (lat lon : ℚ) :
    (mkLocation lat lon).lat = lat ∧ (mkLocation lat lon).lon = lon
    ∧ ∀ lib day horizon dawn ot,
        (calculate_sunrise lib (mkLocation lat lon) day horizon dawn ot).1
          = { lat := lat, lon := lon, pressure := 0, date := day,
              horizon := ephemAngle horizon } := by
  refine ⟨rfl, rfl, ?_⟩
  intro lib day horizon dawn ot
  rw [calculate_sunrise_fst]
  rfl

/-- C7 counterexample: latitude 95, outside [−90, 90], is not rejected
before the solver runs: a probing library that answers only when handed
latitude 95 is consulted for all four events and its answers are returned as
ordinary results, so no construction-time error occurs and the value is not
clamped into range. -/
theorem out_of_range_latitude_reaches_solver :
    list_times probeLat95Lib 95 0 19894 "dt" =
      [("civil_dawn", .ok (some (.dt { sampleTime with tz := some 0 }))),
       ("sunrise", .ok (some (.dt { sampleTime with tz := some 0 }))),
       ("sunset", .ok (some (.dt { sampleTime with tz := some 0 }))),
       ("civil_dusk", .ok (some (.dt { sampleTime with tz := some 0 })))]
    ∧ ((95 : ℚ) < -90 ∨ (90 : ℚ) < 95) :=
  ⟨by rfl, by norm_num⟩

/-- C8: the per-day computation is deterministic — two invocations of
`list_times` against the same library with the same latitude, longitude, day
and output type give identical results; the embedding is a pure function and
the observer state is created fresh inside each call. -/
theorem list_times_deterministic (lib : EphemLib) (lat₁ lon₁ : ℚ) (day₁ : Int)
    (ot₁ : String) (lat₂ lon₂ : ℚ) (day₂ : Int) (ot₂ : String)
    (h1 : lat₁ = lat₂) (h2 : lon₁ = lon₂) (h3 : day₁ = day₂) (h4 : ot₁ = ot₂) :
    list_times lib lat₁ lon₁ day₁ ot₁ = list_times lib lat₂ lon₂ day₂ ot₂ := by
  subst h1; subst h2; subst h3; subst h4; rfl

/-- C8 witness: repeating a concrete calculation reproduces its result. -/
theorem list_times_deterministic_witness :
    list_times absentLib 1 2 3 "iso" = list_times absentLib 1 2 3 "iso" :=
  list_times_deterministic absentLib 1 2 3 "iso" 1 2 3 "iso" rfl rfl rfl rfl

/-- C9: for a found instant and an `output_type` other than `js`, `dt` or
`iso`, no formatting branch assigns the local result, so the call fails with
Python's unbound-local error instead of returning a rendered value. -/
theorem calculate_sunrise_unknown_output_type (lib : EphemLib)
    (location : Observer) (day : Int) (horizon : String) (dawn : Bool)
    (ot : String) (t : DateTime)
    (hjs : ot ≠ "js") (hdt : ot ≠ "dt") (hiso : ot ≠ "iso")
    (h : (if dawn then lib.next_rising else lib.next_setting)
        { location with date := day, horizon := ephemAngle horizon } = some t) :
    (calculate_sunrise lib location day horizon dawn ot).2
      = .error .unboundLocalError := by
  unfold calculate_sunrise
  cases dawn <;> simp only [Bool.false_eq_true, if_true, if_false] at h ⊢ <;>
    simp [h, hjs, hdt, hiso]

/-- C9 witness: output type `xml` with a found instant produces the
unbound-local failure. -/
theorem calculate_sunrise_unknown_output_type_witness :
    (calculate_sunrise presentLib (mkLocation 0 0) 19894 "-6" true "xml").2
      = .error .unboundLocalError :=
  calculate_sunrise_unknown_output_type presentLib (mkLocation 0 0) 19894 "-6" true
    "xml" sampleTime (by decide) (by decide) (by decide) rfl

/-- C10: each event calculation mutates only the observer's date and horizon
— latitude, longitude and pressure come through unchanged; the event result
depends on the incoming observer only through (latitude, longitude,
pressure), so computing another event first (which only reassigns date and
horizon) never changes a later event's result. -/
theorem calculate_sunrise_frame_effects (lib : EphemLib) (o o₂ : Observer)
    (day : Int) (horizon : String) (dawn : Bool) (ot : String)
    (hlat : o.lat = o₂.lat) (hlon : o.lon = o₂.lon)
    (hpr : o.pressure = o₂.pressure) :
    ((calculate_sunrise lib o day horizon dawn ot).1.lat = o.lat
     ∧ (calculate_sunrise lib o day horizon dawn ot).1.lon = o.lon
     ∧ (calculate_sunrise lib o day horizon dawn ot).1.pressure = o.pressure
     ∧ (calculate_sunrise lib o day horizon dawn ot).1.date = day
     ∧ (calculate_sunrise lib o day horizon dawn ot).1.horizon = ephemAngle horizon)
    ∧ (calculate_sunrise lib o day horizon dawn ot).2
        = (calculate_sunrise lib o₂ day horizon dawn ot).2
    ∧ ∀ horizon₂ dawn₂,
        (calculate_sunrise lib
            (calculate_sunrise lib o day horizon₂ dawn₂ ot).1 day horizon dawn ot).2
          = (calculate_sunrise lib o day horizon dawn ot).2 := by
  refine ⟨?_, calculate_sunrise_snd_congr lib o o₂ day horizon dawn ot hlat hlon hpr, ?_⟩
  · rw [calculate_sunrise_fst]
    exact ⟨rfl, rfl, rfl, rfl, rfl⟩
  · intro horizon₂ dawn₂
    rw [calculate_sunrise_fst]
    exact calculate_sunrise_snd_congr lib _ o day horizon dawn ot rfl rfl rfl

/-- C10 witness: two observers sharing position and pressure but differing
in date and horizon produce the same event result. -/
theorem calculate_sunrise_frame_effects_witness :
    (calculate_sunrise presentLib (Observer.mk 1 2 0 5 7) 19894 "-6" true "iso").2
      = (calculate_sunrise presentLib (Observer.mk 1 2 0 8 9) 19894 "-6" true "iso").2 :=
  (calculate_sunrise_frame_effects presentLib (Observer.mk 1 2 0 5 7)
    (Observer.mk 1 2 0 8 9) 19894 "-6" true "iso" rfl rfl rfl).2.1

end Sundowner
